import Mathlib

/-!
Verification of the tool-registry / request-dispatch / proxy-federation core of
the `gary-mcp` repository, as a shallow embedding in Lean.

Sources embedded:
  * `src/src/server.py`             — ToolRegistry, `_require`, `_to_text_content`,
                                      `call_tool`, `_initialize_proxies` (dynamic
                                      registration loop, init gate).
  * `src/src/infrastructure/mcp_client.py`
                                    — MCPProxyConfig, MCPProxyClient (connect,
                                      `_get_next_request_id`, `_send_jsonrpc_request`
                                      in both transports, list_tools, call_tool)
                                      and MCPProxyManager (get_all_tools).
  * `src/src/tools/mcp_proxy_tool.py` — default proxy configuration table.

Modelling conventions:
  * Python JSON-ish values are `PyValue`; Python dicts are association lists
    with Python-dict insert/lookup semantics (`dictInsert`, `dictGetV`).
  * External I/O (subprocess spawn, HTTP exchange, stdout line reads) is passed
    in as oracle arguments describing what the outside world did; the embedded
    function computes exactly what the Python code does with that observation.
  * A Python function that can raise is embedded as `Except String _`; a caught
    exception corresponds to matching the `.error` constructor.
  * `json.dumps(..., ensure_ascii=False, indent=2)` is embedded by `dumps`;
    the whitespace layout of the `indent=2` pretty printer is abstracted to a
    single-line rendering (no claim depends on layout), while the
    raises-TypeError-on-non-serializable behaviour is kept exactly.
-/

/-- A Python value as far as the dispatch/proxy layer observes it: the JSON
constructors plus `obj`, a non-JSON-serializable Python object (carrying its
type name, which appears in the `TypeError` message `json.dumps` raises). -/
inductive PyValue where
  | str : String → PyValue
  | int : Int → PyValue
  | bool : Bool → PyValue
  | none : PyValue
  | list : List PyValue → PyValue
  | dict : List (String × PyValue) → PyValue
  | obj : String → PyValue
deriving Repr

/-- Python `str(v)` / f-string rendering for the scalar shapes the embedded
code formats into messages (container reprs are not needed by any claim). -/
def fmtVal : PyValue → String
  | .str s => s
  | .int n => toString n
  | .bool b => if b then "True" else "False"
  | .none => "None"
  | .list _ => "<list>"
  | .dict _ => "<dict>"
  | .obj t => "<" ++ t ++ ">"

/-- Python truthiness of a `PyValue` (used by `tool_info.get("error")` checks). -/
def pyTruthy : PyValue → Bool
  | .str s => !(s == "")
  | .int n => !(n == 0)
  | .bool b => b
  | .none => false
  | .list xs => !xs.isEmpty
  | .dict kvs => !kvs.isEmpty
  | .obj _ => true

/-- Python dict lookup `d.get(k)` on a string-keyed dict: first (equivalently,
only) binding of the key. -/
def dictGetV {α : Type} : List (String × α) → String → Option α
  | [], _ => Option.none
  | (k, v) :: rest, key => cond (k == key) (some v) (dictGetV rest key)

/-- Python `k in d` on a string-keyed dict. -/
def hasKey {α : Type} (d : List (String × α)) (k : String) : Bool :=
  (dictGetV d k).isSome

/-- Python dict assignment `d[k] = v`: replaces the value in place (keeping the
key's insertion position) when the key is present, appends otherwise. -/
def dictInsert {α : Type} (d : List (String × α)) (k : String) (v : α) :
    List (String × α) :=
  cond (d.any (fun kv => kv.1 == k))
    (d.map (fun kv => cond (kv.1 == k) (k, v) kv))
    (d ++ [(k, v)])

/-- JSON string escaping as `json.dumps` performs for the characters that can
occur in this system's payloads. -/
def escapeChar (c : Char) : String :=
  if c == '\\' then "\\\\"
  else if c == '"' then "\\\""
  else if c == '\n' then "\\n"
  else if c == '\t' then "\\t"
  else if c == '\r' then "\\r"
  else String.singleton c

/-- Escape a whole string for JSON output. -/
def escapeStr (s : String) : String :=
  String.join (s.data.map escapeChar)

mutual

/-- `json.dumps(v, ensure_ascii=False, indent=2)`: renders JSON text, raising
`TypeError("Object of type <T> is not JSON serializable")` at the first
non-serializable object encountered (embedded as `.error`).  Whitespace layout
is abstracted to single-line form. -/
def dumps : PyValue → Except String String
  | .str s => .ok ("\"" ++ escapeStr s ++ "\"")
  | .int n => .ok (toString n)
  | .bool b => .ok (if b then "true" else "false")
  | .none => .ok "null"
  | .list xs =>
    match dumpsList xs with
    | .ok parts => .ok ("[" ++ String.intercalate ", " parts ++ "]")
    | .error e => .error e
  | .dict kvs =>
    match dumpsDict kvs with
    | .ok parts => .ok ("\x7b" ++ String.intercalate ", " parts ++ "\x7d")
    | .error e => .error e
  | .obj t => .error ("Object of type " ++ t ++ " is not JSON serializable")

/-- Serialize the elements of a JSON array, left to right. -/
def dumpsList : List PyValue → Except String (List String)
  | [] => .ok []
  | x :: xs =>
    match dumps x with
    | .error e => .error e
    | .ok s =>
      match dumpsList xs with
      | .error e => .error e
      | .ok ss => .ok (s :: ss)

/-- Serialize the entries of a JSON object, left to right. -/
def dumpsDict : List (String × PyValue) → Except String (List String)
  | [] => .ok []
  | (k, v) :: kvs =>
    match dumps v with
    | .error e => .error e
    | .ok s =>
      match dumpsDict kvs with
      | .error e => .error e
      | .ok ss => .ok (("\"" ++ escapeStr k ++ "\": " ++ s) :: ss)

end

example : dumps (.dict [("error", .str "boom")]) = .ok "\x7b\"error\": \"boom\"\x7d" := rfl

example : dumps (.obj "set") = .error "Object of type set is not JSON serializable" := rfl

/-- `pat.data` is a leading segment of `s.data` (character-wise test backing
Python `s.startswith(pat)`; written out so kernel reduction is structural). -/
def listStarts : List Char → List Char → Bool
  | [], _ => true
  | _ :: _, [] => false
  | a :: as, b :: bs => a == b && listStarts as bs

/-- Python `s.startswith(pat)`. -/
def strStarts (s pat : String) : Bool :=
  listStarts pat.data s.data

/-- Python `s[n:]` for a non-negative `n`. -/
def strDrop (s : String) (n : Nat) : String :=
  String.mk (s.data.drop n)

/-- Python `s.replace("-", "_")` (single-character replacement suffices for the
proxy-name table in `server.py`). -/
def dashToUnderscore (s : String) : String :=
  String.mk (s.data.map (fun c => if c == '-' then '_' else c))

/-- `MCPProxyConfig` (mcp_client.py lines 14-23).  The `namespace_prefix`
field is named `nsPre` here. -/
structure MCPProxyConfig where
  name : String
  command : Option (List String) := Option.none
  url : Option String := Option.none
  env : List (String × String) := []
  cwd : Option String := Option.none
  nsPre : String := ""
deriving Repr, DecidableEq

/-- The mutable per-connection state of `MCPProxyClient` (mcp_client.py lines
29-35): `_connected`, `_request_id` and `_tools_cache`.  The process / HTTP
session handles themselves are represented by the oracle arguments of the
operations below. -/
structure ClientState where
  connected : Bool
  requestId : Nat
  toolsCache : List PyValue
deriving Repr

/-- `MCPProxyClient.__init__`: starts unconnected with `_request_id = 0`. -/
def initClientState : ClientState :=
  { connected := false, requestId := 0, toolsCache := [] }

/-- Bump `_request_id` (`_get_next_request_id`, mcp_client.py lines 75-78);
the id handed to the request is the bumped value. -/
def bump (st : ClientState) : ClientState :=
  { st with requestId := st.requestId + 1 }

/-- `MCPProxyClient.connect` (mcp_client.py lines 37-59).  `spawn` is the
outcome of `asyncio.create_subprocess_exec` (`.error` = spawn raised, e.g.
FileNotFoundError).  A config with a `url` opens an HTTP session (which does
not fail at construction); a config with neither `url` nor `command` raises
`ValueError`. -/
def connect (cfg : MCPProxyConfig) (spawn : Except String Unit)
    (st : ClientState) : Except String ClientState :=
  match cfg.url with
  | some _ => .ok { st with connected := true }
  | Option.none =>
    match cfg.command with
    | some _ =>
      match spawn with
      | .ok _ => .ok { st with connected := true }
      | .error e => .error e
    | Option.none =>
      .error ("Invalid MCP proxy config for " ++ cfg.name ++
        ": need either url or command")

/-- The JSON-RPC 2.0 request envelope built by `_send_jsonrpc_request`
(mcp_client.py lines 86-91). -/
def mkRequest (rid : Nat) (method : String) (params : PyValue) : PyValue :=
  .dict [("jsonrpc", .str "2.0"), ("id", .int (Int.ofNat rid)),
         ("method", .str method), ("params", params)]

/-- The HTTP branch of `_send_jsonrpc_request` (mcp_client.py lines 93-109),
taken when `config.url` is set.  Oracle arguments describe the HTTP response
the server produced: its `status`, its body `text`, and `bodyJson`, the
outcome of `response.json()` (`.error` = the body was not valid JSON, so
parsing raised).  Returns the request posted (trace, for correlation claims)
and the call result.  Status exactly 200 returns the parsed body; any other
status is mapped to `{error: {code: status, message: text}}` without raising. -/
def sendHttp (cfg : MCPProxyConfig) (spawn : Except String Unit)
    (method : String) (params : PyValue) (status : Nat) (text : String)
    (bodyJson : Except String PyValue) (st : ClientState) :
    Option PyValue × Except String (PyValue × ClientState) :=
  match (if st.connected then Except.ok st else connect cfg spawn st) with
  | .error e => (Option.none, .error e)
  | .ok st1 =>
    (some (mkRequest (st1.requestId + 1) method params),
     if status == 200 then
       match bodyJson with
       | .ok v => .ok (v, bump st1)
       | .error e => .error e
     else
       .ok (.dict [("error", .dict [("code", .int (Int.ofNat status)),
                                    ("message", .str text)])], bump st1))

/-- The `ValueError` message of the stdio id-correlation check
(mcp_client.py line 128); `got` is rendered by the f-string from
`response.get("id")`. -/
def mismatchMsg (rid : Nat) (got : PyValue) : String :=
  "Request ID mismatch: expected " ++ toString rid ++ ", got " ++ fmtVal got

/-- Response handling of the stdio branch of `_send_jsonrpc_request`
(mcp_client.py lines 119-130), after the request with id `rid` has been
written: parse the line read from stdout (`lineJson` is the outcome of
`json.loads`), compare `response.get("id")` to `rid` with Python `!=`
(a Python `bool` id compares as its integer value), and raise `ValueError`
on mismatch.  `st2` is the client state after the id bump. -/
def stdioExchange (rid : Nat) (lineJson : Except String PyValue)
    (st2 : ClientState) : Except String (PyValue × ClientState) :=
  match lineJson with
  | .error e => .error e
  | .ok resp =>
    match resp with
    | .dict kvs =>
      match dictGetV kvs "id" with
      | some (PyValue.int n) =>
        if n == Int.ofNat rid then .ok (resp, st2)
        else .error (mismatchMsg rid (PyValue.int n))
      | some (PyValue.bool b) =>
        if (if b then (1 : Int) else 0) == Int.ofNat rid then .ok (resp, st2)
        else .error (mismatchMsg rid (PyValue.bool b))
      | some v => .error (mismatchMsg rid v)
      | Option.none => .error (mismatchMsg rid PyValue.none)
    | _ => .error "AttributeError: get"

/-- The stdio branch of `_send_jsonrpc_request` (mcp_client.py lines 110-130),
taken when `config.url` is unset: connect lazily if needed, assign the next
request id, write one newline-delimited JSON-RPC request to stdin, read one
line back and correlate ids.  Returns the request written (trace) and the
call result. -/
def sendStdio (cfg : MCPProxyConfig) (spawn : Except String Unit)
    (method : String) (params : PyValue) (lineJson : Except String PyValue)
    (st : ClientState) : Option PyValue × Except String (PyValue × ClientState) :=
  match (if st.connected then Except.ok st else connect cfg spawn st) with
  | .error e => (Option.none, .error e)
  | .ok st1 =>
    (some (mkRequest (st1.requestId + 1) method params),
     stdioExchange (st1.requestId + 1) lineJson (bump st1))

/-- Namespacing of one discovered tool (mcp_client.py lines 148-153):
`prefixed_name = f"{ns}{tool['name']}" if ns else tool['name']`, then
`prefixed_tool = tool.copy()`, `prefixed_tool["name"] = prefixed_name`,
`prefixed_tool["original_name"] = tool["name"]`.  `tool["name"]` raises
`KeyError` when absent; subscripting a non-dict element raises `TypeError`
(both are caught by `list_tools`' blanket handler).  The f-string coerces a
non-string name with `str()` (`fmtVal`). -/
def preTool (ns : String) (tool : PyValue) : Except String PyValue :=
  match tool with
  | .dict kvs =>
    match dictGetV kvs "name" with
    | some nv =>
      let pn : PyValue := if ns == "" then nv else .str (ns ++ fmtVal nv)
      .ok (.dict (dictInsert (dictInsert kvs "name" pn) "original_name" nv))
    | Option.none => .error "KeyError: name"
  | _ => .error "TypeError: tool entry is not subscriptable"

/-- Namespacing of the whole discovered tool list, left to right; the first
raising entry aborts (the loop body is inside `list_tools`' try). -/
def preTools (ns : String) : List PyValue → Except String (List PyValue)
  | [] => .ok []
  | t :: ts =>
    match preTool ns t with
    | .error e => .error e
    | .ok pt =>
      match preTools ns ts with
      | .error e => .error e
      | .ok pts => .ok (pt :: pts)

/-- `MCPProxyClient.list_tools` (mcp_client.py lines 132-159).  The lazy
`connect` on line 134-135 sits OUTSIDE the try/except, so a connection
failure propagates; everything from `_send_jsonrpc_request` on is inside the
try and any failure yields `[]`.  `rpc` is the outcome of
`_send_jsonrpc_request("tools/list")` (`.error` = it raised: transport error,
malformed JSON line, or stdio id mismatch).  Responses that are not a dict,
or whose `result` / `tools` fields have the wrong shape, make the Python body
raise (`in` / `.get` / subscription on the wrong type) and are likewise
caught into `[]`. -/
def listTools (cfg : MCPProxyConfig) (spawn : Except String Unit)
    (rpc : Except String PyValue) (st : ClientState) :
    Except String (List PyValue × ClientState) :=
  match (if st.connected then Except.ok st else connect cfg spawn st) with
  | .error e => .error e
  | .ok st1 =>
    let st2 := bump st1
    match rpc with
    | .error _ => .ok ([], st2)
    | .ok resp =>
      match resp with
      | .dict kvs =>
        if hasKey kvs "error" then .ok ([], st2)
        else
          match (dictGetV kvs "result").getD (.dict []) with
          | .dict rkvs =>
            match (dictGetV rkvs "tools").getD (.list []) with
            | .list ts =>
              match preTools cfg.nsPre ts with
              | .ok pts => .ok (pts, { st2 with toolsCache := pts })
              | .error _ => .ok ([], st2)
            | _ => .ok ([], st2)
          | _ => .ok ([], st2)
      | _ => .ok ([], st2)

/-- `MCPProxyClient.call_tool` (mcp_client.py lines 161-186).  The lazy
`connect` (lines 163-164) and the prefix stripping (lines 166-169) sit
outside the try, so a connect failure, or a non-string `tool_name`
(`.startswith` raises), propagates.  Inside the try, `rpc` is the outcome of
`_send_jsonrpc_request("tools/call", ...)`: a raise becomes
`{"error": str(e)}`, an `error` field is re-wrapped, otherwise
`response.get("result", {})` is returned.  The trace component records the
`(name, arguments)` params of the `tools/call` actually issued: the prefix is
stripped only when the name really starts with it. -/
def clientCallTool (cfg : MCPProxyConfig) (spawn : Except String Unit)
    (rpc : Except String PyValue) (toolName : PyValue) (args : PyValue)
    (st : ClientState) :
    Option (String × PyValue) × Except String (PyValue × ClientState) :=
  match (if st.connected then Except.ok st else connect cfg spawn st) with
  | .error e => (Option.none, .error e)
  | .ok st1 =>
    match toolName with
    | .str tn =>
      let origName := if !(cfg.nsPre == "") && strStarts tn cfg.nsPre
                then strDrop tn cfg.nsPre.length else tn
      let st2 := bump st1
      (some (origName, args),
       match rpc with
       | .error e => .ok (.dict [("error", .str e)], st2)
       | .ok resp =>
         match resp with
         | .dict kvs =>
           match dictGetV kvs "error" with
           | some ev => .ok (.dict [("error", ev)], st2)
           | Option.none => .ok ((dictGetV kvs "result").getD (.dict []), st2)
         | _ => .ok (.dict [("error", .str "AttributeError: get")], st2))
    | _ => (Option.none, .error "AttributeError: startswith")

/-- The synthetic error-marked catalog entry `MCPProxyManager.get_all_tools`
appends for a proxy whose `list_tools` raised (mcp_client.py lines 208-214). -/
def synthEntry (cfg : MCPProxyConfig) (msg : String) : PyValue :=
  .dict [("name", .str (cfg.nsPre ++ "error")),
         ("description", .str ("Failed to load tools from " ++ cfg.name ++
           ": " ++ msg)),
         ("inputSchema", .dict []),
         ("error", .bool true)]

/-- `MCPProxyManager.get_all_tools` (mcp_client.py lines 200-215): iterate the
registered proxies in insertion order; a successful `list_tools` extends the
aggregate, a raising one contributes exactly one `synthEntry`.  Each entry of
`entries` is a registered proxy's config together with the outcome of its
`list_tools()` call (`.error` = that call raised). -/
def getAllTools (entries : List (MCPProxyConfig × Except String (List PyValue))) :
    List PyValue :=
  entries.foldl
    (fun acc e =>
      match e.2 with
      | .ok ts => acc ++ ts
      | .error m => acc ++ [synthEntry e.1 m])
    []

/-- Specification form of the aggregate: one contribution per connection,
concatenated in registration order (used to state claim C6 against
`getAllTools`). -/
def getAllToolsSpec : List (MCPProxyConfig × Except String (List PyValue)) →
    List PyValue
  | [] => []
  | e :: es =>
    (match e.2 with
     | .ok ts => ts
     | .error m => [synthEntry e.1 m]) ++ getAllToolsSpec es

/-- Outcome of awaiting a tool handler: a result value, a raised `ValueError`
(e.g. from `_require`), or any other raised exception. -/
inductive HandlerResult where
  | ok : PyValue → HandlerResult
  | valueError : String → HandlerResult
  | exn : String → HandlerResult

/-- `ToolDefinition` (server.py lines 28-35): name, description, input schema
and asynchronous handler. -/
structure ToolDefinition where
  name : String
  description : String
  schema : PyValue
  handler : List (String × PyValue) → HandlerResult

/-- `ToolRegistry.__init__` (server.py lines 41-42): builds the name→definition
dict `{d.name: d for d in definitions}`; duplicate names collapse to the last
occurrence (Python dict comprehension semantics). -/
def registryOfDefs (defs : List ToolDefinition) :
    List (String × ToolDefinition) :=
  defs.foldl (fun acc d => dictInsert acc d.name d) []

/-- Dynamic upsert used by proxy registration (server.py line 624):
`tool_registry._definitions[tool_name] = proxy_def`. -/
def upsertDef (reg : List (String × ToolDefinition)) (d : ToolDefinition) :
    List (String × ToolDefinition) :=
  dictInsert reg d.name d

/-- `ToolRegistry.get_handler` (server.py lines 54-56). -/
def getHandler (reg : List (String × ToolDefinition)) (name : String) :
    Option (List (String × PyValue) → HandlerResult) :=
  (dictGetV reg name).map (fun d => d.handler)

/-- `ToolRegistry.list_tools` (server.py lines 44-52): the catalog snapshot in
insertion order, without handlers. -/
def listRegistry (reg : List (String × ToolDefinition)) :
    List (String × String × PyValue) :=
  reg.map (fun kv => (kv.2.name, kv.2.description, kv.2.schema))

/-- `_require` (server.py lines 77-80): raises
`ValueError(f"Missing required argument: {key}")` when the key is absent from
the call's argument bag. -/
def require (args : List (String × PyValue)) (key : String) :
    Except String PyValue :=
  match dictGetV args key with
  | Option.none => .error ("Missing required argument: " ++ key)
  | some v => .ok v

/-- The handler shape of every `_handle_*` that begins with
`_require(arguments, key)`: the `ValueError` raised by `_require` propagates
out of the handler; otherwise the rest of the handler runs on the value. -/
def withRequired (key : String)
    (rest : PyValue → List (String × PyValue) → HandlerResult) :
    List (String × PyValue) → HandlerResult :=
  fun args =>
    match require args key with
    | .error m => .valueError m
    | .ok v => rest v args

/-- `TextContent(type="text", text=...)` as produced by `_to_text_content`. -/
structure TextContent where
  type : String
  text : String
deriving Repr, DecidableEq

/-- The serialized text of the `{error: <m>}` envelope (what
`_to_text_content({"error": m})` puts in the `text` field), i.e.
`{"error": "<m escaped>"}`; the association of the appends mirrors the
evaluation order of `dumps` so the correspondence is definitional. -/
def errText (m : String) : String :=
  ("\x7b" ++ ("\"error\": " ++ (("\"" ++ escapeStr m) ++ "\""))) ++ "\x7d"

/-- `[_to_text_content({"error": m})]`, the error-envelope arm of `call_tool`
(server.py lines 646, 652, 654); kept as an `Except` because a raise inside
that very serialization would propagate (it cannot: see
`errEnvelope_never_raises`). -/
def errEnvelope (m : String) : Except String (List TextContent) :=
  match dumps (.dict [("error", .str m)]) with
  | .ok s => .ok [{ type := "text", text := s }]
  | .error e => .error e

/-- `call_tool` (server.py lines 639-654), after the one-time proxy
initialization: resolve the handler (absence → `Unknown tool` envelope, a
normal payload); run it; serialize the result with `_to_text_content`
(server.py lines 565-566) — a `TypeError` raised there is caught by the
blanket `except Exception` just like a handler failure; `ValueError` and any
other exception are rendered as `{error: str(exc)}`.  A `.error` overall
result would mean an uncaught protocol-level failure. -/
def callTool (reg : List (String × ToolDefinition)) (name : String)
    (args : List (String × PyValue)) : Except String (List TextContent) :=
  match getHandler reg name with
  | Option.none => errEnvelope ("Unknown tool: " ++ name)
  | some h =>
    match h args with
    | .ok v =>
      match dumps v with
      | .ok s => .ok [{ type := "text", text := s }]
      | .error m => errEnvelope m
    | .valueError m => errEnvelope m
    | .exn m => errEnvelope m

/-- The fixed table of known proxy names (server.py line 589). -/
def knownProxyNames : List String :=
  ["sequential-thinking", "playwright", "aws-docs", "chrome-devtools", "context7"]

/-- Proxy-name resolution for a discovered (prefixed) tool name
(server.py lines 587-605): first the table match on `"{name}_"` or
`"{name.replace('-','_')}_"` (first match wins), then the fallback chain on
the namespace prefixes. -/
def resolveProxyName (toolName : String) : Option String :=
  match knownProxyNames.find?
      (fun n => strStarts toolName (n ++ "_") ||
                strStarts toolName (dashToUnderscore n ++ "_")) with
  | some n => some n
  | Option.none =>
    if strStarts toolName "thinking_" then some "sequential-thinking"
    else if strStarts toolName "playwright_" then some "playwright"
    else if strStarts toolName "aws_docs_" then some "aws-docs"
    else if strStarts toolName "chrome_" then some "chrome-devtools"
    else if strStarts toolName "context7_" then some "context7"
    else Option.none

/-- The loop-scoped locals `pname` / `oname` of `_initialize_proxies`
(server.py lines 609-610).  Every `proxy_handler` closure built in the loop
(lines 612-613) captures these two VARIABLES of the enclosing function frame,
not their current values: Python closures close over cells, and `pname = ...`
inside the `for` body rebinds the same frame-local cell on every iteration.
All registered proxy handlers therefore share one `ProxyCells`, whose content
after initialization is whatever the LAST registering iteration wrote.
`oname` is kept as a `PyValue` because `tool_info.get("original_name", ...)`
is not forced to a string. -/
structure ProxyCells where
  pname : String
  oname : PyValue
deriving Repr

/-- The dynamic-registration loop of `_initialize_proxies` (server.py lines
580-624), processing the discovered proxy-tool dicts in order.  State: the
list of federated tool names registered so far (upserts into the registry, in
order) and the current content of the shared closure cells.  Per entry:
a truthy `error` field is skipped (`continue`); `tool_info["name"]` must be a
string (otherwise `KeyError` / `.startswith` raising `AttributeError` aborts
the whole try-block, keeping prior registrations — the `except` swallows it);
a name whose prefix resolves to no known proxy is silently dropped;
otherwise the cells are overwritten and a `ToolDefinition` named
`tool_name` whose handler reads the shared cells is upserted. -/
def initRegLoop : List PyValue → List String × Option ProxyCells →
    List String × Option ProxyCells
  | [], s => s
  | t :: ts, s =>
    match t with
    | .dict kvs =>
      if ((dictGetV kvs "error").map pyTruthy).getD false then
        initRegLoop ts s
      else
        match dictGetV kvs "name" with
        | some (PyValue.str toolName) =>
          let origName := (dictGetV kvs "original_name").getD (.str toolName)
          match resolveProxyName toolName with
          | some pn => initRegLoop ts (s.1 ++ [toolName], some ⟨pn, origName⟩)
          | Option.none => initRegLoop ts s
        | _ => s
    | _ => s

/-- The default proxy table registered by `MCPProxyService.initialize`
(mcp_proxy_tool.py lines 34-61) via `MCPProxyManager.register_proxy`, keyed
by connection name in registration order. -/
def defaultProxyConfigs : List (String × MCPProxyConfig) :=
  [("sequential-thinking",
    { name := "sequential-thinking",
      command := some ["npx", "-y", "@modelcontextprotocol/server-sequential-thinking"],
      nsPre := "thinking_" }),
   ("playwright",
    { name := "playwright",
      command := some ["npx", "@playwright/mcp@latest"],
      nsPre := "playwright_" }),
   ("aws-docs",
    { name := "aws-docs",
      url := some "https://knowledge-mcp.global.api.aws",
      nsPre := "aws_docs_" }),
   ("chrome-devtools",
    { name := "chrome-devtools",
      command := some ["npx", "chrome-devtools-mcp@latest"],
      nsPre := "chrome_" }),
   ("context7",
    { name := "context7",
      url := some "https://mcp.context7.com/mcp",
      nsPre := "context7_" })]

/-- What a federated tool's registered handler actually does when invoked
after initialization completes: it evaluates
`mcp_proxy_service.call_proxy_tool(pname, oname, args)` with the CURRENT
content of the shared cells (server.py lines 612-613), which routes through
`MCPProxyManager.call_proxy_tool` (mcp_client.py lines 217-223: `ValueError`
if the connection name is unregistered, modelled as `Option.none`) into that
connection's `call_tool`, whose issued `tools/call` params are traced by
`clientCallTool`.  Result: `some (connectionName, remoteToolName, arguments)`
actually placed on the wire. -/
def federatedIssue (proxies : List (String × MCPProxyConfig))
    (cells : ProxyCells) (args : PyValue) (spawn : Except String Unit)
    (rpc : Except String PyValue) (st : ClientState) :
    Option (String × String × PyValue) :=
  match dictGetV proxies cells.pname with
  | Option.none => Option.none
  | some cfg =>
    match (clientCallTool cfg spawn rpc cells.oname args st).1 with
    | some (n, a) => some (cells.pname, n, a)
    | Option.none => Option.none

/-- Global state of the one-time federation-initialization gate
(server.py lines 562, 569-629) under asyncio's cooperative scheduling, for
`n` concurrent first callers of `list_tools` / `call_tool` (each of which
begins with `await _initialize_proxies()`).  `flag` is `_proxy_initialized`;
`runs` counts executions of the initialization body (callers that found the
flag unset and proceeded past the guard); `pcs` are the per-task program
counters. -/
structure GateState where
  flag : Bool
  runs : Nat
  pcs : List Nat
deriving Repr, DecidableEq

/-- One cooperative step of task `i` in `_initialize_proxies`.
Program counters: `0` = at entry; `1` = suspended at the first true await
point of the body (the subprocess spawn / HTTP exchange inside
`mcp_proxy_service.list_proxy_tools()` → `get_all_tools()` → `list_tools()`
→ `connect()`; note `mcp_proxy_service.initialize()` itself contains no
suspension point, and `_proxy_initialized` is only assigned on line 629,
after those awaits); `2` = returned.  Everything between two suspension
points runs atomically, so:
pc 0: test `_proxy_initialized`; if set, return; otherwise enter the body
(counted in `runs`) and run to the first suspension.
pc 1: resume, finish discovery and registration, set `_proxy_initialized`,
return. -/
def gateStep (s : GateState) (i : Nat) : GateState :=
  match s.pcs.get? i with
  | Option.none => s
  | some pc =>
    if pc == 0 then
      if s.flag then { s with pcs := s.pcs.set i 2 }
      else { s with runs := s.runs + 1, pcs := s.pcs.set i 1 }
    else if pc == 1 then
      { s with flag := true, pcs := s.pcs.set i 2 }
    else s

/-- Run `n` concurrent first callers under the cooperative schedule `sched`
(the event loop's choice of which ready task advances to its next suspension
point), starting from the uninitialized server state. -/
def gateRun (n : Nat) (sched : List Nat) : GateState :=
  sched.foldl gateStep { flag := false, runs := 0, pcs := List.replicate n 0 }

/-- A misconfigured proxy: neither `command` nor `url` (the configuration the
spec's §8 test list also exercises). -/
def badCfg : MCPProxyConfig :=
  { name := "bad" }

/-- A demo stdio proxy config with namespace `demo_`. -/
def demoCfg : MCPProxyConfig :=
  { name := "demo", command := some ["demo-server"], nsPre := "demo_" }

/-- A demo HTTP proxy config. -/
def urlCfg : MCPProxyConfig :=
  { name := "web", url := some "https://example.invalid/rpc", nsPre := "web_" }

/-- A connected client state with no requests sent yet. -/
def stConn : ClientState :=
  { connected := true, requestId := 0, toolsCache := [] }

/-- The spec's example tool: `echo`, requiring argument `msg`, returning
`{msg: <input msg>}` (the handler begins with `_require(arguments, "msg")`). -/
def echoDef : ToolDefinition :=
  { name := "echo",
    description := "echo the message back",
    schema := .dict [("type", .str "object")],
    handler := withRequired "msg" (fun v _ => .ok (.dict [("msg", v)])) }

/-- A registry holding only `echo`. -/
def echoReg : List (String × ToolDefinition) :=
  registryOfDefs [echoDef]

/-- A tool whose handler succeeds but returns a Python `set`, which
`json.dumps` cannot serialize. -/
def badSerialDef : ToolDefinition :=
  { name := "bad_serial",
    description := "returns a non-JSON-serializable value",
    schema := .dict [("type", .str "object")],
    handler := fun _ => .ok (.obj "set") }

/-- A registry holding only `bad_serial`. -/
def badSerialReg : List (String × ToolDefinition) :=
  registryOfDefs [badSerialDef]

/-- Discovered proxy-tool catalog with federated tools from two different
connections: `thinking_ping` (original `ping`, from `sequential-thinking`)
and `playwright_click` (original `click`, from `playwright`). -/
def twoProxyTools : List PyValue :=
  [.dict [("name", .str "thinking_ping"), ("original_name", .str "ping"),
          ("description", .str "ping the thinker"),
          ("inputSchema", .dict [])],
   .dict [("name", .str "playwright_click"), ("original_name", .str "click"),
          ("description", .str "click something"),
          ("inputSchema", .dict [])]]

/-- A remote tool entry used in the aggregation witness. -/
def webTool : PyValue :=
  .dict [("name", .str "web_fetch"), ("original_name", .str "fetch")]

/-- A two-connection federation outcome: `web` listed one tool, `demo`'s
listing raised (e.g. its command failed to spawn). -/
def mixedEntries : List (MCPProxyConfig × Except String (List PyValue)) :=
  [(urlCfg, .ok [webTool]), (demoCfg, .error "spawn failed")]

example : errEnvelope "x" = .ok [{ type := "text", text := errText "x" }] := rfl

/-- The error-envelope serialization itself never raises: `errEnvelope m`
is always the well-formed single text content item. -/
theorem errEnvelope_never_raises (m : String) :
    errEnvelope m = .ok [{ type := "text", text := errText m }] := rfl
/-- Looking up the inserted key after replacement-in-place finds the new value. -/
theorem dictGetV_map_subst_self {α : Type} (l : List (String × α)) (k : String)
    (v : α) (h : l.any (fun kv => kv.1 == k) = true) :
    dictGetV (l.map (fun kv => cond (kv.1 == k) (k, v) kv)) k = some v := by
  induction l with
  | nil => simp at h
  | cons kv rest ih =>
    simp only [List.map_cons]
    cases hk : (kv.1 == k) with
    | true => simp [hk, dictGetV]
    | false =>
      have h' : rest.any (fun kv => kv.1 == k) = true := by
        simpa [List.any_cons, hk] using h
      simp [hk, dictGetV, ih h']

/-- Replacement-in-place does not disturb lookups of other keys. -/
theorem dictGetV_map_subst_other {α : Type} (l : List (String × α))
    (k k' : String) (v : α) (hne : k' ≠ k) :
    dictGetV (l.map (fun kv => cond (kv.1 == k) (k, v) kv)) k' =
      dictGetV l k' := by
  induction l with
  | nil => rfl
  | cons kv rest ih =>
    simp only [List.map_cons]
    cases hk : (kv.1 == k) with
    | true =>
      have h1 : (k == k') = false :=
        beq_eq_false_iff_ne.mpr (fun h => hne h.symm)
      have h2 : (kv.1 == k') = false := by
        rw [eq_of_beq hk]; exact h1
      simp [hk, dictGetV, h1, h2, ih]
    | false => simp [hk, dictGetV, ih]

/-- When no entry carries the key, lookup misses. -/
theorem dictGetV_of_any_false {α : Type} (l : List (String × α)) (k : String)
    (h : l.any (fun kv => kv.1 == k) = false) :
    dictGetV l k = Option.none := by
  induction l with
  | nil => rfl
  | cons kv rest ih =>
    simp only [List.any_cons, Bool.or_eq_false_iff] at h
    simp [dictGetV, h.1, ih h.2]

/-- Lookup distributes over append: the left list is searched first. -/
theorem dictGetV_append {α : Type} (l₁ l₂ : List (String × α)) (k : String) :
    dictGetV (l₁ ++ l₂) k =
      match dictGetV l₁ k with
      | some v => some v
      | Option.none => dictGetV l₂ k := by
  induction l₁ with
  | nil => rfl
  | cons kv rest ih =>
    cases hk : (kv.1 == k) with
    | true => simp [dictGetV, hk]
    | false => simp [dictGetV, hk, ih]

/-- Python-dict insert then lookup of the same key yields the new value. -/
theorem dictGetV_insert_self {α : Type} (l : List (String × α)) (k : String)
    (v : α) : dictGetV (dictInsert l k v) k = some v := by
  cases h : l.any (fun kv => kv.1 == k) with
  | true => simpa [dictInsert, h] using dictGetV_map_subst_self l k v h
  | false =>
    simp only [dictInsert, h, cond_false]
    rw [dictGetV_append, dictGetV_of_any_false l k h]
    simp [dictGetV]

/-- Python-dict insert leaves other keys' lookups unchanged. -/
theorem dictGetV_insert_other {α : Type} (l : List (String × α))
    (k k' : String) (v : α) (hne : k' ≠ k) :
    dictGetV (dictInsert l k v) k' = dictGetV l k' := by
  cases h : l.any (fun kv => kv.1 == k) with
  | true => simpa [dictInsert, h] using dictGetV_map_subst_other l k k' v hne
  | false =>
    simp only [dictInsert, h, cond_false]
    rw [dictGetV_append]
    have h1 : (k == k') = false :=
      beq_eq_false_iff_ne.mpr (fun h => hne h.symm)
    cases h2 : dictGetV l k' <;> simp [h2, dictGetV, h1]

/-- `getLast?` of a cons in terms of the tail. -/
theorem getLast?_cons_eq {α : Type} (a : α) (l : List α) :
    (a :: l).getLast? = some (l.getLast?.getD a) := by
  induction l generalizing a with
  | nil => rfl
  | cons b t ih => simp [List.getLast?_cons_cons, ih]

/-- Folding a batch of definitions into a dict resolves each name to the last
definition carrying it (falling back to the accumulator when the batch has
none). -/
theorem foldl_insert_get (defs : List ToolDefinition)
    (acc : List (String × ToolDefinition)) (n : String) :
    dictGetV (defs.foldl (fun a d => dictInsert a d.name d) acc) n =
      match (defs.filter (fun d => d.name == n)).getLast? with
      | some d => some d
      | Option.none => dictGetV acc n := by
  induction defs generalizing acc with
  | nil => simp
  | cons d rest ih =>
    rw [List.foldl_cons, ih]
    cases hd : (d.name == n) with
    | true =>
      have hdn : d.name = n := eq_of_beq hd
      simp only [List.filter_cons, hd, if_true]
      rw [getLast?_cons_eq]
      cases h2 : (rest.filter (fun d => d.name == n)).getLast? with
      | some d' => simp [h2]
      | none =>
        simp only [h2, Option.getD_none]
        rw [hdn, dictGetV_insert_self]
    | false =>
      have hne : n ≠ d.name := by
        intro h; rw [h] at hd; simp at hd
      simp only [List.filter_cons, hd, Bool.false_eq_true, if_false]
      cases h2 : (rest.filter (fun d => d.name == n)).getLast? with
      | some d' => simp [h2]
      | none => simp only [h2]; exact dictGetV_insert_other acc d.name n d hne

/-- The key list after a Python-dict insert: unchanged on overwrite, the new
key appended otherwise. -/
theorem dictInsert_keys {α : Type} (l : List (String × α)) (k : String)
    (v : α) :
    (dictInsert l k v).map Prod.fst =
      cond (l.any (fun kv => kv.1 == k))
        (l.map Prod.fst) (l.map Prod.fst ++ [k]) := by
  cases h : l.any (fun kv => kv.1 == k) with
  | true =>
    simp only [dictInsert, h, cond_true, List.map_map]
    apply List.map_congr_left
    intro kv hkv
    cases hk : (kv.1 == k) with
    | true => simp [hk, (eq_of_beq hk).symm]
    | false => simp [hk]
  | false => simp [dictInsert, h]

/-- A Python-dict insert preserves key uniqueness. -/
theorem dictInsert_keys_nodup {α : Type} (l : List (String × α)) (k : String)
    (v : α) (h : (l.map Prod.fst).Nodup) :
    ((dictInsert l k v).map Prod.fst).Nodup := by
  rw [dictInsert_keys]
  cases hany : l.any (fun kv => kv.1 == k) with
  | true => simpa using h
  | false =>
    simp only [cond_false]
    rw [List.nodup_append]
    refine ⟨h, List.nodup_singleton k, ?_⟩
    intro x hx hx'
    simp only [List.mem_singleton] at hx'
    subst hx'
    rcases List.mem_map.mp hx with ⟨kv, hkv, hfst⟩
    have h0 := List.any_eq_false.mp hany kv hkv
    simp [hfst] at h0

/-- Folding definition batches into a dict keeps the keys unique. -/
theorem foldl_insert_keys_nodup (defs : List ToolDefinition)
    (acc : List (String × ToolDefinition))
    (h : (acc.map Prod.fst).Nodup) :
    (((defs.foldl (fun a d => dictInsert a d.name d) acc)).map Prod.fst).Nodup := by
  induction defs generalizing acc with
  | nil => exact h
  | cons d rest ih =>
    rw [List.foldl_cons]
    exact ih _ (dictInsert_keys_nodup acc d.name d h)

/-- The catalog fold equals the per-connection contributions, modulo a
prepended accumulator. -/
theorem foldl_contrib
    (entries : List (MCPProxyConfig × Except String (List PyValue)))
    (acc : List PyValue) :
    entries.foldl
        (fun acc e =>
          match e.2 with
          | .ok ts => acc ++ ts
          | .error m => acc ++ [synthEntry e.1 m])
        acc = acc ++ getAllToolsSpec entries := by
  induction entries generalizing acc with
  | nil => simp [getAllToolsSpec]
  | cons e es ih =>
    rw [List.foldl_cons, ih]
    cases he : e.2 <;> simp [getAllToolsSpec, he]

/-- A failed connection's synthetic entry is in the per-connection form of the
catalog. -/
theorem synthEntry_mem_spec
    (entries : List (MCPProxyConfig × Except String (List PyValue)))
    (cfg : MCPProxyConfig) (m : String)
    (hmem : (cfg, Except.error m) ∈ entries) :
    synthEntry cfg m ∈ getAllToolsSpec entries := by
  induction entries with
  | nil => cases hmem
  | cons e es ih =>
    rcases List.mem_cons.mp hmem with he | hmem'
    · rw [← he]
      simp [getAllToolsSpec]
    · cases h2 : e.2 <;>
        simp [getAllToolsSpec, h2, ih hmem']

/-- A successfully-listed tool is in the per-connection form of the catalog. -/
theorem tool_mem_spec
    (entries : List (MCPProxyConfig × Except String (List PyValue)))
    (cfg : MCPProxyConfig) (ts : List PyValue) (t : PyValue)
    (hmem : (cfg, Except.ok ts) ∈ entries) (ht : t ∈ ts) :
    t ∈ getAllToolsSpec entries := by
  induction entries with
  | nil => cases hmem
  | cons e es ih =>
    rcases List.mem_cons.mp hmem with he | hmem'
    · rw [← he]
      simp [getAllToolsSpec]
      exact Or.inl ht
    · cases h2 : e.2 <;>
        simp [getAllToolsSpec, h2, ih hmem']

/-- A successful `stdioExchange` hands back exactly the post-bump state. -/
theorem stdioExchange_ok_state (rid : Nat) (lj : Except String PyValue)
    (st2 : ClientState) (r : PyValue) (s2 : ClientState)
    (h : stdioExchange rid lj st2 = .ok (r, s2)) : s2 = st2 := by
  unfold stdioExchange at h
  repeat' split at h
  all_goals simp_all

/-- Claim C7: registry last-write-wins uniqueness — constructing a registry
from a batch with duplicate names keeps, for each name, exactly the last
definition carrying it; registry keys are always unique; and after two
upserts under one name, resolution returns the second registration's handler
only. -/
theorem registry_last_write_wins :
    (∀ (defs : List ToolDefinition) (n : String),
        dictGetV (registryOfDefs defs) n =
          (defs.filter (fun d => d.name == n)).getLast?) ∧
    (∀ (defs : List ToolDefinition),
        ((registryOfDefs defs).map Prod.fst).Nodup) ∧
    (∀ (reg : List (String × ToolDefinition)) (d1 d2 : ToolDefinition),
        getHandler (upsertDef (upsertDef reg d1) d2) d2.name =
          some d2.handler) := by
  refine ⟨?_, ?_, ?_⟩
  · intro defs n
    rw [registryOfDefs, foldl_insert_get]
    cases h2 : (defs.filter (fun d => d.name == n)).getLast? <;>
      simp [h2, dictGetV]
  · intro defs
    exact foldl_insert_keys_nodup defs [] (by simp)
  · intro reg d1 d2
    unfold getHandler upsertDef
    rw [dictGetV_insert_self]
    rfl

/-- Claim C8: unknown-tool envelope — for every name absent from the unified
registry and every argument bag, `callTool` returns the normal payload
envelope `{error: "Unknown tool: <name>"}` and never raises. -/
theorem callTool_unknown_tool (reg : List (String × ToolDefinition))
    (name : String) (args : List (String × PyValue))
    (h : dictGetV reg name = Option.none) :
    callTool reg name args =
      .ok [{ type := "text", text := errText ("Unknown tool: " ++ name) }] := by
  simp [callTool, getHandler, h, errEnvelope_never_raises]

/-- Witness for C8 at the spec's own example input `("nope", {})` on a
registry with no entries. -/
theorem callTool_unknown_tool_witness :
    callTool (registryOfDefs []) "nope" [] =
      .ok [{ type := "text", text := errText "Unknown tool: nope" }] :=
  callTool_unknown_tool (registryOfDefs []) "nope" [] rfl

/-- Claim C9: missing-required-argument envelope — calling a registered tool
whose handler requires argument `k` (its body starts with
`_require(arguments, k)`) with a bag lacking `k` returns the normal payload
envelope `{error: "Missing required argument: <k>"}`; the `ValueError` stays
inside the dispatch boundary. -/
theorem callTool_missing_required (reg : List (String × ToolDefinition))
    (name k : String)
    (rest : PyValue → List (String × PyValue) → HandlerResult)
    (args : List (String × PyValue)) (d : ToolDefinition)
    (hlook : dictGetV reg name = some d)
    (hhandler : d.handler = withRequired k rest)
    (hmiss : dictGetV args k = Option.none) :
    callTool reg name args =
      .ok [{ type := "text",
             text := errText ("Missing required argument: " ++ k) }] := by
  simp [callTool, getHandler, hlook, hhandler, withRequired, require, hmiss,
        errEnvelope_never_raises]

/-- Witness for C9: the spec's `echo` example, called with an empty bag. -/
theorem callTool_missing_required_witness :
    callTool echoReg "echo" [] =
      .ok [{ type := "text", text := errText "Missing required argument: msg" }] :=
  callTool_missing_required echoReg "echo" "msg"
    (fun v _ => .ok (.dict [("msg", v)])) [] echoDef rfl rfl rfl

/-- Claim C10: the dispatch error barrier also covers response encoding —
when a handler succeeds but its result cannot be JSON-serialized, the
`TypeError` raised by `_to_text_content` inside the try-block is caught by
the blanket handler and the call returns the `{error: <message>}` envelope
instead of failing at the protocol level. -/
theorem callTool_unserializable_result (reg : List (String × ToolDefinition))
    (name : String) (args : List (String × PyValue)) (d : ToolDefinition)
    (v : PyValue) (m : String)
    (hlook : dictGetV reg name = some d)
    (hrun : d.handler args = .ok v)
    (hdump : dumps v = .error m) :
    callTool reg name args = .ok [{ type := "text", text := errText m }] := by
  simp [callTool, getHandler, hlook, hrun, hdump, errEnvelope_never_raises]

/-- Witness for C10: a handler returning a Python `set`. -/
theorem callTool_unserializable_result_witness :
    callTool badSerialReg "bad_serial" [] =
      .ok [{ type := "text",
             text := errText "Object of type set is not JSON serializable" }] :=
  callTool_unserializable_result badSerialReg "bad_serial" [] badSerialDef
    (.obj "set") "Object of type set is not JSON serializable" rfl rfl rfl

/-- Claim C6: partial-failure aggregation — `getAllTools` is total (never
raises), equals the concatenation of per-connection contributions (each
successful listing verbatim, each raising listing exactly one synthetic
error-marked entry naming the failed connection), and hence contains every
successfully listed tool and the synthetic entry of every failed
connection. -/
theorem getAllTools_aggregation :
    (∀ entries, getAllTools entries = getAllToolsSpec entries) ∧
    (∀ entries cfg m, (cfg, Except.error m) ∈ entries →
        synthEntry cfg m ∈ getAllTools entries) ∧
    (∀ entries cfg ts t, (cfg, Except.ok ts) ∈ entries → t ∈ ts →
        t ∈ getAllTools entries) := by
  have heq : ∀ entries, getAllTools entries = getAllToolsSpec entries := by
    intro entries
    unfold getAllTools
    rw [foldl_contrib]
    simp
  refine ⟨heq, ?_, ?_⟩
  · intro entries cfg m hmem
    rw [heq]
    exact synthEntry_mem_spec entries cfg m hmem
  · intro entries cfg ts t hmem ht
    rw [heq]
    exact tool_mem_spec entries cfg ts t hmem ht

/-- Witness for C6: a two-connection federation where `demo` failed to spawn
and `web` listed one tool — the aggregate keeps the tool and carries the
synthetic entry. -/
theorem getAllTools_aggregation_witness :
    webTool ∈ getAllTools mixedEntries ∧
    synthEntry demoCfg "spawn failed" ∈ getAllTools mixedEntries :=
  ⟨getAllTools_aggregation.2.2 mixedEntries urlCfg [webTool] webTool
      (List.Mem.head _) (List.Mem.head _),
   getAllTools_aggregation.2.1 mixedEntries demoCfg "spawn failed"
      (List.Mem.tail _ (List.Mem.head _))⟩

/-- Claim C5: request-id sequencing and correlation — a fresh connection
starts at `_request_id = 0`; each stdio send issues the request with id
`previous + 1` (so the first request gets id 1 and ids ascend by one) and
leaves the counter at that id; and a response line whose `id` differs from
the just-sent request's id fails the call with the correlation-mismatch
`ValueError` instead of returning that response. -/
theorem stdio_id_sequencing :
    initClientState.requestId = 0 ∧
    (∀ cfg spawn method params lineJson st, st.connected = true →
        (sendStdio cfg spawn method params lineJson st).1 =
          some (mkRequest (st.requestId + 1) method params)) ∧
    (∀ cfg spawn method params lineJson st resp st2, st.connected = true →
        (sendStdio cfg spawn method params lineJson st).2 =
          Except.ok (resp, st2) →
        st2.requestId = st.requestId + 1) ∧
    (∀ cfg spawn method params kvs st n, st.connected = true →
        dictGetV kvs "id" = some (PyValue.int n) →
        n ≠ Int.ofNat (st.requestId + 1) →
        (sendStdio cfg spawn method params
            (Except.ok (PyValue.dict kvs)) st).2 =
          Except.error ("Request ID mismatch: expected " ++
            toString (st.requestId + 1) ++ ", got " ++ toString n)) := by
  refine ⟨rfl, ?_, ?_, ?_⟩
  · intro cfg spawn method params lineJson st h
    simp [sendStdio, h]
  · intro cfg spawn method params lineJson st resp st2 h h2
    simp only [sendStdio, h, if_true] at h2
    have hst := stdioExchange_ok_state _ _ _ _ _ h2
    rw [hst]
    rfl
  · intro cfg spawn method params kvs st n h hid hne
    have hb : (n == Int.ofNat (st.requestId + 1)) = false :=
      beq_eq_false_iff_ne.mpr hne
    simp [sendStdio, h, stdioExchange, hid, hb, mismatchMsg, fmtVal]
    exact_mod_cast hne

/-- Witness for C5: on a fresh connected client the request carries id 1;
a response line answering with id 99 fails with the mismatch error. -/
theorem stdio_id_sequencing_witness :
    (sendStdio demoCfg (Except.ok ()) "tools/list" (PyValue.dict [])
        (Except.ok (PyValue.dict [("id", PyValue.int 99)])) stConn).1 =
      some (mkRequest (stConn.requestId + 1) "tools/list" (PyValue.dict [])) ∧
    (sendStdio demoCfg (Except.ok ()) "tools/list" (PyValue.dict [])
        (Except.ok (PyValue.dict [("id", PyValue.int 99)])) stConn).2 =
      Except.error ("Request ID mismatch: expected " ++
        toString (stConn.requestId + 1) ++ ", got " ++ toString (99 : Int)) :=
  ⟨stdio_id_sequencing.2.1 demoCfg (Except.ok ()) "tools/list"
      (PyValue.dict []) (Except.ok (PyValue.dict [("id", PyValue.int 99)]))
      stConn rfl,
   stdio_id_sequencing.2.2.2 demoCfg (Except.ok ()) "tools/list"
      (PyValue.dict []) [("id", PyValue.int 99)] stConn 99 rfl rfl (by decide)⟩

/-- Claim C4 (amended): network-transport status mapping — the HTTP branch
returns the parsed JSON-RPC body exactly for status 200, and maps EVERY
other status (including other 2xx codes, see the counterexample) to
`{error: {code: <status>, message: <body text>}}`. -/
theorem http_status_mapping :
    (∀ cfg spawn method params status text bodyJson st,
        st.connected = true → status ≠ 200 →
        (sendHttp cfg spawn method params status text bodyJson st).2 =
          Except.ok (PyValue.dict [("error", PyValue.dict
              [("code", PyValue.int (Int.ofNat status)),
               ("message", PyValue.str text)])], bump st)) ∧
    (∀ cfg spawn method params text bodyJson st, st.connected = true →
        (sendHttp cfg spawn method params 200 text bodyJson st).2 =
          match bodyJson with
          | Except.ok v => Except.ok (v, bump st)
          | Except.error e => Except.error e) := by
  constructor
  · intro cfg spawn method params status text bodyJson st h hs
    have hb : (status == 200) = false := by
      simpa using hs
    simp [sendHttp, h, hb]
  · intro cfg spawn method params text bodyJson st h
    cases bodyJson <;> simp [sendHttp, h]

/-- Witness for C4's amended theorem: a 500 response with body `boom` maps to
the error object. -/
theorem http_status_mapping_witness :
    (sendHttp urlCfg (Except.ok ()) "tools/list" (PyValue.dict []) 500 "boom"
        (Except.error "not json") stConn).2 =
      Except.ok (PyValue.dict [("error", PyValue.dict
          [("code", PyValue.int 500), ("message", PyValue.str "boom")])],
        bump stConn) :=
  http_status_mapping.1 urlCfg (Except.ok ()) "tools/list" (PyValue.dict [])
    500 "boom" (Except.error "not json") stConn rfl (by decide)

/-- Counterexample to C4 as stated: a 201 response — a 2xx status — is NOT
returned as the parsed body; the code tests `status == 200` and maps 201 to
the error object. -/
theorem http_status_201_counterexample :
    (sendHttp urlCfg (Except.ok ()) "tools/list" (PyValue.dict []) 201
        "created" (Except.ok (PyValue.dict [("result", PyValue.str "made")]))
        stConn).2 =
      Except.ok (PyValue.dict [("error", PyValue.dict
          [("code", PyValue.int 201), ("message", PyValue.str "created")])],
        bump stConn) ∧
    (sendHttp urlCfg (Except.ok ()) "tools/list" (PyValue.dict []) 201
        "created" (Except.ok (PyValue.dict [("result", PyValue.str "made")]))
        stConn).2 ≠
      Except.ok (PyValue.dict [("result", PyValue.str "made")], bump stConn) := by
  constructor
  · rfl
  · intro hcon
    have heq : (sendHttp urlCfg (Except.ok ()) "tools/list" (PyValue.dict [])
        201 "created"
        (Except.ok (PyValue.dict [("result", PyValue.str "made")])) stConn).2 =
      Except.ok (PyValue.dict [("error", PyValue.dict
          [("code", PyValue.int 201), ("message", PyValue.str "created")])],
        bump stConn) := rfl
    rw [heq] at hcon
    simp at hcon

/-- Claim C3 (amended): `list_tools` error swallowing — once the connection
is established, any failure of the `tools/list` exchange (transport raise,
malformed JSON, stdio id mismatch: `rpc = .error`) and any JSON-RPC `error`
field in the response yield `[]` without raising; but a failure to establish
the lazy connection itself (line 135 sits outside the try-block) propagates
out of `list_tools` — where `get_all_tools` catches it into a synthetic
entry. -/
theorem listTools_swallow_after_connect :
    (∀ cfg spawn e st, st.connected = true →
        listTools cfg spawn (Except.error e) st = Except.ok ([], bump st)) ∧
    (∀ cfg spawn kvs st, st.connected = true → hasKey kvs "error" = true →
        listTools cfg spawn (Except.ok (PyValue.dict kvs)) st =
          Except.ok ([], bump st)) ∧
    (∀ cfg spawn rpc st e, st.connected = false →
        connect cfg spawn st = Except.error e →
        listTools cfg spawn rpc st = Except.error e) := by
  refine ⟨?_, ?_, ?_⟩
  · intro cfg spawn e st h
    simp [listTools, h]
  · intro cfg spawn kvs st h hk
    simp [listTools, h, hk]
  · intro cfg spawn rpc st e h hc
    simp [listTools, h, hc]

/-- Witness for C3's amended theorem: a broken pipe and an error-field
response both give `[]`; the misconfigured connection raises. -/
theorem listTools_swallow_after_connect_witness :
    listTools demoCfg (Except.ok ()) (Except.error "pipe broke") stConn =
      Except.ok ([], bump stConn) ∧
    listTools demoCfg (Except.ok ())
        (Except.ok (PyValue.dict
          [("error", PyValue.dict [("code", PyValue.int (-32600))])])) stConn =
      Except.ok ([], bump stConn) ∧
    listTools badCfg (Except.ok ()) (Except.error "x") initClientState =
      Except.error
        "Invalid MCP proxy config for bad: need either url or command" :=
  ⟨listTools_swallow_after_connect.1 demoCfg (Except.ok ()) "pipe broke"
      stConn rfl,
   listTools_swallow_after_connect.2.1 demoCfg (Except.ok ())
      [("error", PyValue.dict [("code", PyValue.int (-32600))])] stConn rfl rfl,
   listTools_swallow_after_connect.2.2 badCfg (Except.ok ())
      (Except.error "x") initClientState
      "Invalid MCP proxy config for bad: need either url or command" rfl rfl⟩

/-- Counterexample to C3 as stated: a connection-establishment failure (here
the deterministic `ValueError` for a config with neither `command` nor `url`;
a subprocess spawn failure takes the same path) makes `list_tools` RAISE
rather than return `[]`, because the lazy `connect` call is outside the
try-block. -/
theorem listTools_connect_failure_raises :
    listTools badCfg (Except.ok ()) (Except.error "net down") initClientState =
      Except.error
        "Invalid MCP proxy config for bad: need either url or command" ∧
    listTools badCfg (Except.ok ()) (Except.error "net down") initClientState ≠
      Except.ok ([], bump initClientState) := by
  constructor
  · rfl
  · intro h
    have heq : listTools badCfg (Except.ok ()) (Except.error "net down")
        initClientState =
      Except.error
        "Invalid MCP proxy config for bad: need either url or command" := rfl
    rw [heq] at h
    simp at h

/-- Claim C1 (code bug): the federated-call routing round-trip fails when
several proxy tools are registered.  Registration does add federated tools
named prefix+name (`thinking_ping`, `playwright_click` here), but every
`proxy_handler` closure reads the SHARED frame locals `pname` / `oname`
(rebound each loop iteration; the `pname = proxy_name` lines do not create
per-iteration bindings), so after initialization every federated handler —
including `thinking_ping`'s — issues the tools/call of the LAST registered
tool: remote name `click` on connection `playwright`, not `ping` on
`sequential-thinking` as the claim requires. -/
theorem federated_routing_closure_bug :
    initRegLoop twoProxyTools ([], Option.none) =
      (["thinking_ping", "playwright_click"],
       some { pname := "playwright", oname := PyValue.str "click" }) ∧
    federatedIssue defaultProxyConfigs
        { pname := "playwright", oname := PyValue.str "click" }
        (PyValue.dict []) (Except.ok ())
        (Except.ok (PyValue.dict [("result", PyValue.dict [])])) stConn =
      some ("playwright", "click", PyValue.dict []) ∧
    ("playwright", "click") ≠ ("sequential-thinking", "ping") := by
  refine ⟨rfl, rfl, by decide⟩

/-- Claim C2 (code bug): the init gate is a plain boolean set only after the
body's await points, so two concurrent first callers can both pass the guard
— the cooperative schedule `[0, 1, 0, 1]` (task 0 runs to its first
suspension, task 1 runs to its first suspension, then each finishes) executes
the initialization body twice (`runs = 2`), with both callers completing and
the flag set; the sequential schedule `[0, 0, 1]` runs it once, as the claim
demands of every schedule. -/
theorem init_gate_double_run :
    (gateRun 2 [0, 1, 0, 1]).runs = 2 ∧
    (gateRun 2 [0, 1, 0, 1]).pcs = [2, 2] ∧
    (gateRun 2 [0, 1, 0, 1]).flag = true ∧
    (gateRun 2 [0, 0, 1]).runs = 1 ∧
    (2 : Nat) ≠ 1 := by
  refine ⟨rfl, rfl, rfl, rfl, by decide⟩
